import Mathlib

/-!
Shallow embedding of `src/badread/badread.py` (the Badread command-line
front end), covering the parts the specification claims talk about:

* `check_simulate_args` (badread.py lines 172-234): validation of the
  arguments of the `simulate` subcommand.  Python mutates the `argparse`
  namespace and calls `sys.exit(message)` on the first violated rule; the
  embedding is a total function from an `Args` record to
  `Except SimArgError CheckedArgs`, where `CheckedArgs` extends `Args`
  with the eight derived numeric fields the Python code assigns, and each
  `sys.exit` site is one `SimArgError` constructor whose `message`
  function reproduces the exact exit text.
* the `simulate` dispatch in `main` (badread.py lines 54-57): modelled by
  `main_simulate`, which runs the validation and hands the checked
  arguments to an abstract `simulate` continuation.
* the argparse defaults of the `model` subcommand (badread.py lines 138-144):
  modelled by `model_parse_args` over `argWithDefault`, the value-or-default
  rule argparse applies to optional arguments.

Numbers: Python parses the comma-separated option strings with `float`.
Machine floats are modelled as `ℚ`; every comparison the validator makes
(against 0, 50, 100 and the two `settings` minima) is exact in either
representation for the values the claims are about.  A comma-separated
option string `"x1,x2,..."` is represented by the list of the per-component
results of the Python `float` call: `List (Option ℚ)`, where `none` marks a
component on which `float` raises `ValueError`.  The filesystem test
`pathlib.Path(em).is_file()` is an external fact and enters `Args` as the
boolean field `error_model_is_file`.
-/

namespace Badread

/-- The Python `str.lower()` method for the strings compared here (ASCII):
per-character lowering of the string. -/
def pyLower (s : String) : String := String.mk (s.data.map Char.toLower)

/-- The Python comprehension `[float(x) for x in s.split(COMMA)]` acting on the represented
split: `none` (a component `float` rejects) makes the whole comprehension
raise `ValueError`, modelled as `none`; otherwise the list of values. -/
def parseFloats : List (Option ℚ) → Option (List ℚ)
  | [] => some []
  | none :: _ => none
  | some x :: rest => (parseFloats rest).map (fun l => x :: l)

/-- Modelled from the spec: `badread.py` line 20 imports `settings`
(`src/badread/settings.py` is not part of the sources).  The spec calls
`MIN_MEAN_READ_LENGTH` a small positive floor for fragment lengths and
`MIN_MEAN_READ_IDENTITY` the minimum allowed identity, without fixing
values, so both stay parameters of the development. -/
structure Settings where
  MIN_MEAN_READ_LENGTH : ℚ
  MIN_MEAN_READ_IDENTITY : ℚ

/-- The argparse namespace of the `simulate` subcommand as it reaches
`check_simulate_args` (badread.py lines 68-119), in declaration order.
`length`, `identity` and `glitches` are the comma-split `float`-parse
representations of the corresponding option strings;
`error_model_is_file` records `pathlib.Path(error_model).is_file()`. -/
structure Args where
  reference : String
  quantity : String
  length : List (Option ℚ)
  identity : List (Option ℚ)
  error_model : String
  error_model_is_file : Bool
  start_adapter : String
  end_adapter : String
  start_adapter_seq : String
  end_adapter_seq : String
  junk_reads : ℚ
  random_reads : ℚ
  chimeras : ℚ
  glitches : List (Option ℚ)
  small_plasmid_bias : Bool

/-- The argparse namespace after a successful `check_simulate_args` call:
the original fields plus the eight numeric fields the Python code assigns
(badread.py lines 193-194, 205-207, 228-230), in assignment order. -/
structure CheckedArgs extends Args where
  mean_frag_length : ℚ
  frag_length_stdev : ℚ
  mean_identity : ℚ
  max_identity : ℚ
  identity_shape : ℚ
  glitch_rate : ℚ
  glitch_size : ℚ
  glitch_skip : ℚ

/-- One constructor per `sys.exit` site of `check_simulate_args`
(badread.py lines 178-234), carrying the values the Python message
interpolates. -/
inductive SimArgError where
  | badErrorModel (error_model : String)
  | chimerasTooHigh
  | junkReadsTooHigh
  | randomReadsTooHigh
  | junkRandomSumTooHigh
  | lengthParseFailed
  | meanLengthTooSmall (minLen : ℚ)
  | stdevNegative
  | identityParseFailed
  | meanIdentityOver100
  | maxIdentityOver100
  | meanIdentityTooSmall (minId : ℚ)
  | maxIdentityTooSmall (minId : ℚ)
  | meanAboveMax (meanId maxId : ℚ)
  | shapeNotPositive
  | glitchesParseFailed
  | glitchesNegative

/-- The exact `sys.exit` message of each exit site (numeric values are
rendered through `ℚ`, where Python renders the float). -/
def SimArgError.message : SimArgError → String
  | .badErrorModel em =>
      "Error: " ++ em ++ " is not a file\n  --error_model must be " ++
        "\"random\", \"perfect\" or a filename"
  | .chimerasTooHigh => "Error: --chimeras cannot be greater than 50"
  | .junkReadsTooHigh => "Error: --junk_reads cannot be greater than 100"
  | .randomReadsTooHigh => "Error: --random_reads cannot be greater than 100"
  | .junkRandomSumTooHigh =>
      "Error: --junk_reads and --random_reads cannot sum to more than 100"
  | .lengthParseFailed => "Error: could not parse --length values"
  | .meanLengthTooSmall minLen =>
      "Error: mean read length must be at least " ++ toString minLen
  | .stdevNegative => "Error: read length stdev cannot be negative"
  | .identityParseFailed => "Error: could not parse --identity values"
  | .meanIdentityOver100 => "Error: mean read identity cannot be more than 100"
  | .maxIdentityOver100 => "Error: max read identity cannot be more than 100"
  | .meanIdentityTooSmall minId =>
      "Error: mean read identity must be at least " ++ toString minId
  | .maxIdentityTooSmall minId =>
      "Error: max read identity must be at least " ++ toString minId
  | .meanAboveMax meanId maxId =>
      "Error: mean identity (" ++ toString meanId ++
        ") cannot be larger than max identity (" ++ toString maxId ++ ")"
  | .shapeNotPositive => "Error: read identity shape must be a positive value"
  | .glitchesParseFailed => "Error: could not parse --glitches values"
  | .glitchesNegative => "Error: --glitches must contain non-negative values"

/-- badread.py lines 175-180: the error-model selector is accepted when its
lowercasing is `"perfect"` or `"random"`, or when it names an existing
file; otherwise the program exits. -/
def checkErrorModel (a : Args) : Except SimArgError Unit :=
  let model := pyLower a.error_model
  if model ≠ "perfect" ∧ model ≠ "random" ∧ a.error_model_is_file = false then
    .error (.badErrorModel a.error_model)
  else
    .ok ()

/-- badread.py lines 182-189: upper bounds on the three percentage
parameters and on the junk+random sum, checked in source order. -/
def checkPercentages (a : Args) : Except SimArgError Unit :=
  if a.chimeras > 50 then .error .chimerasTooHigh
  else if a.junk_reads > 100 then .error .junkReadsTooHigh
  else if a.random_reads > 100 then .error .randomReadsTooHigh
  else if a.junk_reads + a.random_reads > 100 then .error .junkRandomSumTooHigh
  else .ok ()

/-- badread.py lines 191-201: parse `--length` into mean and stdev
(`ValueError`/`IndexError` both exit with the parse message), then bound
them. -/
def checkLength (s : Settings) (a : Args) : Except SimArgError (ℚ × ℚ) :=
  match parseFloats a.length with
  | some (mean_frag_length :: frag_length_stdev :: _) =>
    if mean_frag_length ≤ s.MIN_MEAN_READ_LENGTH then
      .error (.meanLengthTooSmall s.MIN_MEAN_READ_LENGTH)
    else if frag_length_stdev < 0 then .error .stdevNegative
    else .ok (mean_frag_length, frag_length_stdev)
  | _ => .error .lengthParseFailed

/-- badread.py lines 203-224: parse `--identity` into mean, max and shape,
then the six bound checks in source order. -/
def checkIdentity (s : Settings) (a : Args) : Except SimArgError (ℚ × ℚ × ℚ) :=
  match parseFloats a.identity with
  | some (mean_identity :: max_identity :: identity_shape :: _) =>
    if mean_identity > 100 then .error .meanIdentityOver100
    else if max_identity > 100 then .error .maxIdentityOver100
    else if mean_identity ≤ s.MIN_MEAN_READ_IDENTITY then
      .error (.meanIdentityTooSmall s.MIN_MEAN_READ_IDENTITY)
    else if max_identity ≤ s.MIN_MEAN_READ_IDENTITY then
      .error (.maxIdentityTooSmall s.MIN_MEAN_READ_IDENTITY)
    else if mean_identity > max_identity then
      .error (.meanAboveMax mean_identity max_identity)
    else if identity_shape ≤ 0 then .error .shapeNotPositive
    else .ok (mean_identity, max_identity, identity_shape)
  | _ => .error .identityParseFailed

/-- badread.py lines 226-234: parse `--glitches` into rate, size and skip,
then reject any negative value. -/
def checkGlitches (a : Args) : Except SimArgError (ℚ × ℚ × ℚ) :=
  match parseFloats a.glitches with
  | some (glitch_rate :: glitch_size :: glitch_skip :: _) =>
    if glitch_rate < 0 ∨ glitch_size < 0 ∨ glitch_skip < 0 then
      .error .glitchesNegative
    else .ok (glitch_rate, glitch_size, glitch_skip)
  | _ => .error .glitchesParseFailed

/-- badread.py lines 172-234: `check_simulate_args` runs the rule blocks in
source order, stopping at the first `sys.exit`; on success the argparse
namespace carries the original fields plus the eight assigned ones. -/
def check_simulate_args (s : Settings) (a : Args) : Except SimArgError CheckedArgs :=
  match checkErrorModel a with
  | .error e => .error e
  | .ok _ =>
    match checkPercentages a with
    | .error e => .error e
    | .ok _ =>
      match checkLength s a with
      | .error e => .error e
      | .ok (mean_frag_length, frag_length_stdev) =>
        match checkIdentity s a with
        | .error e => .error e
        | .ok (mean_identity, max_identity, identity_shape) =>
          match checkGlitches a with
          | .error e => .error e
          | .ok (glitch_rate, glitch_size, glitch_skip) =>
            .ok ⟨a, mean_frag_length, frag_length_stdev, mean_identity,
                 max_identity, identity_shape, glitch_rate, glitch_size,
                 glitch_skip⟩

/-- badread.py lines 54-57: for the `simulate` subcommand, `main` runs
`check_simulate_args` and only then calls `simulate(args)`; a `sys.exit`
inside the validation propagates and `simulate` is never reached.  The
`simulate` body lives in the excluded `simulate` module, so it is an
abstract continuation here. -/
def main_simulate {α : Type} (s : Settings) (a : Args)
    (simulate : CheckedArgs → α) : Except SimArgError α :=
  match check_simulate_args s a with
  | .error e => .error e
  | .ok checked => .ok (simulate checked)

/-- The argparse rule for an optional argument with a declared default: the
user-supplied value when present, the default otherwise. -/
def argWithDefault {α : Type} (default : α) (user : Option α) : α :=
  user.getD default

/-- The optional arguments of the `model` subcommand (badread.py lines 138-144):
`--k_size`, `--max_alignments` (no default) and `--max_alt`. -/
structure ModelArgs where
  k_size : ℤ
  max_alignments : Option ℤ
  max_alt : ℤ

/-- badread.py lines 138-144: the optional arguments of the `model` subcommand
with their argparse defaults (`--k_size` default 7, `--max_alt` default
25, `--max_alignments` absent unless supplied). -/
def model_parse_args (user_k_size user_max_alignments user_max_alt : Option ℤ) :
    ModelArgs :=
  ⟨argWithDefault 7 user_k_size, user_max_alignments,
   argWithDefault 25 user_max_alt⟩

/-- `--length`, `--identity` or `--glitches` supplies at least `n`
comma-separated values that `float` all accept. -/
def parsesToAtLeast (xs : List (Option ℚ)) (n : ℕ) : Prop :=
  ∃ ps, parseFloats xs = some ps ∧ n ≤ ps.length

/-! ### Concrete evaluations

`demoArgs` is built from the argparse defaults of the `simulate` subcommand
(badread.py lines 75-116): `--length 10000,9000`, `--identity 85,95,4`,
`--error_model random`, `--junk_reads 1`, `--random_reads 1`,
`--chimeras 1`, `--glitches 5000,50,50`.  `demoSettings` is an arbitrary
concrete instantiation of the two `settings` minima. -/

def demoSettings : Settings := ⟨100, 50⟩

def demoArgs : Args where
  reference := "ref.fasta"
  quantity := "50x"
  length := [some 10000, some 9000]
  identity := [some 85, some 95, some 4]
  error_model := "random"
  error_model_is_file := false
  start_adapter := "0.9,0.6"
  end_adapter := "0.5,0.2"
  start_adapter_seq := "AATGTACTTCGTTCAGTTACGTATTGCT"
  end_adapter_seq := "GCAATACGTAACTGAACGAAGT"
  junk_reads := 1
  random_reads := 1
  chimeras := 1
  glitches := [some 5000, some 50, some 50]
  small_plasmid_bias := false

/-- The namespace `check_simulate_args` leaves behind on `demoArgs`. -/
def demoChecked : CheckedArgs :=
  ⟨demoArgs, 10000, 9000, 85, 95, 4, 5000, 50, 50⟩

/-- The default configuration with `--chimeras 51`. -/
def demoChimArgs : Args := { demoArgs with chimeras := 51 }

/-- The default configuration with an unparseable `--length`. -/
def demoBadLenArgs : Args := { demoArgs with length := [none] }

/-- The default configuration with an `--error_model` that is neither a
built-in name nor an existing file. -/
def demoBadModelArgs : Args :=
  { demoArgs with error_model := "missing_model_file", error_model_is_file := false }

/-- The default configuration with `--glitches 0,50,50`. -/
def demoZeroGlitchArgs : Args := { demoArgs with glitches := [some 0, some 50, some 50] }

/-- The default configuration with a mean fragment length exactly at the
concrete floor of `demoSettings`. -/
def demoBoundaryArgs : Args := { demoArgs with length := [some 100, some 0] }

/-- A configuration with all three percentage parameters negative; length
and identity values are chosen relative to the settings so that every
other rule passes (the identity values sit midway between the identity
floor and 100). -/
def negPercentArgs (s : Settings) : Args :=
  { demoArgs with
      junk_reads := -2
      random_reads := -3
      chimeras := -1
      length := [some (s.MIN_MEAN_READ_LENGTH + 1), some 0]
      identity := [some ((s.MIN_MEAN_READ_IDENTITY + 100) / 2),
                   some ((s.MIN_MEAN_READ_IDENTITY + 100) / 2), some 1] }

/-- The namespace `check_simulate_args` leaves behind on `negPercentArgs`. -/
def negPercentChecked (s : Settings) : CheckedArgs :=
  ⟨negPercentArgs s, s.MIN_MEAN_READ_LENGTH + 1, 0,
   (s.MIN_MEAN_READ_IDENTITY + 100) / 2, (s.MIN_MEAN_READ_IDENTITY + 100) / 2,
   1, 5000, 50, 50⟩

/-! ### Stage characterisations -/

/-- The error-model block accepts exactly the lowercased built-in names and
existing files. -/
lemma checkErrorModel_ok_iff (a : Args) :
    checkErrorModel a = .ok () ↔
      pyLower a.error_model = "perfect" ∨ pyLower a.error_model = "random" ∨
        a.error_model_is_file = true := by
  simp only [checkErrorModel]
  split_ifs with h
  · obtain ⟨h1, h2, h3⟩ := h
    constructor
    · intro hc
      exact absurd hc (by simp)
    · rintro (hc | hc | hc)
      · exact absurd hc h1
      · exact absurd hc h2
      · rw [h3] at hc
        exact absurd hc (by simp)
  · push_neg at h
    constructor
    · intro _
      by_cases h1 : pyLower a.error_model = "perfect"
      · exact Or.inl h1
      by_cases h2 : pyLower a.error_model = "random"
      · exact Or.inr (Or.inl h2)
      · exact Or.inr (Or.inr (by simpa using h h1 h2))
    · intro _
      rfl

/-- The percentage block accepts exactly the four upper bounds. -/
lemma checkPercentages_ok_iff (a : Args) :
    checkPercentages a = .ok () ↔
      a.chimeras ≤ 50 ∧ a.junk_reads ≤ 100 ∧ a.random_reads ≤ 100 ∧
        a.junk_reads + a.random_reads ≤ 100 := by
  unfold checkPercentages
  split_ifs with h1 h2 h3 h4
  · simp [h1.not_le]
  · simp [h2.not_le]
  · simp [h3.not_le]
  · simp [h4.not_le]
  · push_neg at h1 h2 h3 h4
    simp [h1, h2, h3, h4]

/-- The length block succeeds exactly on a parseable list of at least two
values whose mean is above the floor and whose stdev is non-negative. -/
lemma checkLength_ok_iff (s : Settings) (a : Args) (m st : ℚ) :
    checkLength s a = .ok (m, st) ↔
      ∃ rest, parseFloats a.length = some (m :: st :: rest) ∧
        s.MIN_MEAN_READ_LENGTH < m ∧ 0 ≤ st := by
  rcases hp : parseFloats a.length with _ | ps
  · simp [checkLength, hp]
  · rcases ps with _ | ⟨x, _ | ⟨y, rest⟩⟩
    · simp [checkLength, hp]
    · simp [checkLength, hp]
    · simp only [checkLength, hp]
      constructor
      · intro h
        split_ifs at h with h1 h2
        push_neg at h1 h2
        obtain ⟨hx, hy⟩ : x = m ∧ y = st := by simpa using h
        subst hx
        subst hy
        exact ⟨rest, rfl, h1, h2⟩
      · rintro ⟨rest2, heq, hm, hst⟩
        obtain ⟨hx, hy, -⟩ : x = m ∧ y = st ∧ rest = rest2 := by simpa using heq
        subst hx
        subst hy
        rw [if_neg (not_le.mpr hm), if_neg (not_lt.mpr hst)]

/-- The identity block succeeds exactly on a parseable list of at least
three values passing the six bound checks. -/
lemma checkIdentity_ok_iff (s : Settings) (a : Args) (mi xi sh : ℚ) :
    checkIdentity s a = .ok (mi, xi, sh) ↔
      ∃ rest, parseFloats a.identity = some (mi :: xi :: sh :: rest) ∧
        mi ≤ 100 ∧ xi ≤ 100 ∧ s.MIN_MEAN_READ_IDENTITY < mi ∧
        s.MIN_MEAN_READ_IDENTITY < xi ∧ mi ≤ xi ∧ 0 < sh := by
  rcases hp : parseFloats a.identity with _ | ps
  · simp [checkIdentity, hp]
  · rcases ps with _ | ⟨x, _ | ⟨y, _ | ⟨z, rest⟩⟩⟩
    · simp [checkIdentity, hp]
    · simp [checkIdentity, hp]
    · simp [checkIdentity, hp]
    · simp only [checkIdentity, hp]
      constructor
      · intro h
        split_ifs at h with h1 h2 h3 h4 h5 h6
        push_neg at h1 h2 h3 h4 h5 h6
        obtain ⟨hx, hy, hz⟩ : x = mi ∧ y = xi ∧ z = sh := by simpa using h
        subst hx
        subst hy
        subst hz
        exact ⟨rest, rfl, h1, h2, h3, h4, h5, h6⟩
      · rintro ⟨rest2, heq, hb1, hb2, hb3, hb4, hb5, hb6⟩
        obtain ⟨hx, hy, hz, -⟩ : x = mi ∧ y = xi ∧ z = sh ∧ rest = rest2 := by
          simpa using heq
        subst hx
        subst hy
        subst hz
        rw [if_neg (not_lt.mpr hb1), if_neg (not_lt.mpr hb2),
          if_neg (not_le.mpr hb3), if_neg (not_le.mpr hb4),
          if_neg (not_lt.mpr hb5), if_neg (not_le.mpr hb6)]

/-- The glitch block succeeds exactly on a parseable list of at least three
non-negative values. -/
lemma checkGlitches_ok_iff (a : Args) (gr gs gk : ℚ) :
    checkGlitches a = .ok (gr, gs, gk) ↔
      ∃ rest, parseFloats a.glitches = some (gr :: gs :: gk :: rest) ∧
        0 ≤ gr ∧ 0 ≤ gs ∧ 0 ≤ gk := by
  rcases hp : parseFloats a.glitches with _ | ps
  · simp [checkGlitches, hp]
  · rcases ps with _ | ⟨x, _ | ⟨y, _ | ⟨z, rest⟩⟩⟩
    · simp [checkGlitches, hp]
    · simp [checkGlitches, hp]
    · simp [checkGlitches, hp]
    · simp only [checkGlitches, hp]
      constructor
      · intro h
        split_ifs at h with h1
        push_neg at h1
        obtain ⟨hx, hy, hz⟩ : x = gr ∧ y = gs ∧ z = gk := by simpa using h
        subst hx
        subst hy
        subst hz
        exact ⟨rest, rfl, h1.1, h1.2.1, h1.2.2⟩
      · rintro ⟨rest2, heq, hb1, hb2, hb3⟩
        obtain ⟨hx, hy, hz, -⟩ : x = gr ∧ y = gs ∧ z = gk ∧ rest = rest2 := by
          simpa using heq
        subst hx
        subst hy
        subst hz
        rw [if_neg]
        push_neg
        exact ⟨hb1, hb2, hb3⟩

/-- The error-model block only ever exits through its own message. -/
lemma checkErrorModel_error_shape (a : Args) (e : SimArgError)
    (h : checkErrorModel a = .error e) : e = .badErrorModel a.error_model := by
  simp only [checkErrorModel] at h
  split_ifs at h
  simpa using h.symm

/-- Percentage-block exits never carry the error-model message. -/
lemma checkPercentages_error_ne_badModel (a : Args) (e : SimArgError)
    (h : checkPercentages a = .error e) (em : String) :
    e ≠ .badErrorModel em := by
  unfold checkPercentages at h
  split_ifs at h <;>
    (injection h with h
     subst h
     simp)

/-- Length-block exits never carry the error-model message. -/
lemma checkLength_error_ne_badModel (s : Settings) (a : Args) (e : SimArgError)
    (h : checkLength s a = .error e) (em : String) :
    e ≠ .badErrorModel em := by
  unfold checkLength at h
  split at h
  · split_ifs at h <;>
      (injection h with h
       subst h
       simp)
  · injection h with h
    subst h
    simp

/-- Identity-block exits never carry the error-model message. -/
lemma checkIdentity_error_ne_badModel (s : Settings) (a : Args) (e : SimArgError)
    (h : checkIdentity s a = .error e) (em : String) :
    e ≠ .badErrorModel em := by
  unfold checkIdentity at h
  split at h
  · split_ifs at h <;>
      (injection h with h
       subst h
       simp)
  · injection h with h
    subst h
    simp

/-- Glitch-block exits never carry the error-model message. -/
lemma checkGlitches_error_ne_badModel (a : Args) (e : SimArgError)
    (h : checkGlitches a = .error e) (em : String) :
    e ≠ .badErrorModel em := by
  unfold checkGlitches at h
  split at h
  · split_ifs at h
    injection h with h
    subst h
    simp
  · injection h with h
    subst h
    simp

/-- Master characterisation: `check_simulate_args` succeeds exactly when
all five rule blocks succeed, and then the result is the input namespace
extended with the parsed values of the blocks. -/
lemma check_simulate_args_ok_iff (s : Settings) (a : Args) (out : CheckedArgs) :
    check_simulate_args s a = .ok out ↔
      checkErrorModel a = .ok () ∧ checkPercentages a = .ok () ∧
      checkLength s a = .ok (out.mean_frag_length, out.frag_length_stdev) ∧
      checkIdentity s a = .ok (out.mean_identity, out.max_identity, out.identity_shape) ∧
      checkGlitches a = .ok (out.glitch_rate, out.glitch_size, out.glitch_skip) ∧
      out.toArgs = a := by
  obtain ⟨oa, om, ost, omi, oxi, osh, ogr, ogs, ogk⟩ := out
  unfold check_simulate_args
  rcases h1 : checkErrorModel a with e | ⟨⟩
  · simp [h1]
  · rcases h2 : checkPercentages a with e | ⟨⟩
    · simp [h1, h2]
    · rcases h3 : checkLength s a with e | ⟨m, st⟩
      · simp [h1, h2, h3]
      · rcases h4 : checkIdentity s a with e | ⟨mi, xi, sh⟩
        · simp [h1, h2, h3, h4]
        · rcases h5 : checkGlitches a with e | ⟨gr, gs, gk⟩
          · simp [h1, h2, h3, h4, h5]
          · simp only [h1, h2, h3, h4, h5]
            constructor
            · intro h
              obtain ⟨ha, hm, hst, hmi, hxi, hsh, hgr, hgs, hgk⟩ :
                  a = oa ∧ m = om ∧ st = ost ∧ mi = omi ∧ xi = oxi ∧
                    sh = osh ∧ gr = ogr ∧ gs = ogs ∧ gk = ogk := by
                simpa [CheckedArgs.mk.injEq] using h
              subst ha
              subst hm
              subst hst
              subst hmi
              subst hxi
              subst hsh
              subst hgr
              subst hgs
              subst hgk
              simp
            · rintro ⟨-, -, hl, hi, hg, hargs⟩
              obtain ⟨hm, hst⟩ : m = om ∧ st = ost := by simpa using hl
              obtain ⟨hmi, hxi, hsh⟩ : mi = omi ∧ xi = oxi ∧ sh = osh := by
                simpa using hi
              obtain ⟨hgr, hgs, hgk⟩ : gr = ogr ∧ gs = ogs ∧ gk = ogk := by
                simpa using hg
              subst hm
              subst hst
              subst hmi
              subst hxi
              subst hsh
              subst hgr
              subst hgs
              subst hgk
              simp [hargs]

/-- An unparseable `--length` makes the length block exit with the parse
message. -/
lemma checkLength_parseFail (s : Settings) (a : Args)
    (h : ¬ parsesToAtLeast a.length 2) :
    checkLength s a = .error .lengthParseFailed := by
  unfold checkLength
  rcases hp : parseFloats a.length with _ | ps
  · rfl
  · rcases ps with _ | ⟨x, _ | ⟨y, rest⟩⟩
    · rfl
    · rfl
    · exact absurd ⟨x :: y :: rest, hp, by simp⟩ h

/-- An unparseable `--identity` makes the identity block exit with the
parse message. -/
lemma checkIdentity_parseFail (s : Settings) (a : Args)
    (h : ¬ parsesToAtLeast a.identity 3) :
    checkIdentity s a = .error .identityParseFailed := by
  unfold checkIdentity
  rcases hp : parseFloats a.identity with _ | ps
  · rfl
  · rcases ps with _ | ⟨x, _ | ⟨y, _ | ⟨z, rest⟩⟩⟩
    · rfl
    · rfl
    · rfl
    · exact absurd ⟨x :: y :: z :: rest, hp, by simp⟩ h

/-- An unparseable `--glitches` makes the glitch block exit with the parse
message. -/
lemma checkGlitches_parseFail (a : Args)
    (h : ¬ parsesToAtLeast a.glitches 3) :
    checkGlitches a = .error .glitchesParseFailed := by
  unfold checkGlitches
  rcases hp : parseFloats a.glitches with _ | ps
  · rfl
  · rcases ps with _ | ⟨x, _ | ⟨y, _ | ⟨z, rest⟩⟩⟩
    · rfl
    · rfl
    · rfl
    · exact absurd ⟨x :: y :: z :: rest, hp, by simp⟩ h

/-- The default `simulate` configuration passes validation. -/
lemma demo_check_ok :
    check_simulate_args demoSettings demoArgs = .ok demoChecked := by
  apply (check_simulate_args_ok_iff _ _ _).mpr
  refine ⟨?_, ?_, ?_, ?_, ?_, rfl⟩
  · exact (checkErrorModel_ok_iff _).mpr (Or.inr (Or.inl (by decide)))
  · exact (checkPercentages_ok_iff _).mpr
      ⟨by norm_num [demoArgs], by norm_num [demoArgs], by norm_num [demoArgs],
       by norm_num [demoArgs]⟩
  · exact (checkLength_ok_iff _ _ _ _).mpr
      ⟨[], by simp [demoArgs, demoChecked, parseFloats],
       by norm_num [demoSettings, demoChecked], by norm_num [demoChecked]⟩
  · exact (checkIdentity_ok_iff _ _ _ _ _).mpr
      ⟨[], by simp [demoArgs, demoChecked, parseFloats],
       by norm_num [demoChecked], by norm_num [demoChecked],
       by norm_num [demoSettings, demoChecked],
       by norm_num [demoSettings, demoChecked], by norm_num [demoChecked],
       by norm_num [demoChecked]⟩
  · exact (checkGlitches_ok_iff _ _ _ _).mpr
      ⟨[], by simp [demoArgs, demoChecked, parseFloats],
       by norm_num [demoChecked], by norm_num [demoChecked],
       by norm_num [demoChecked]⟩

/-- With `--chimeras 51` the program exits at the chimera rule. -/
lemma demo_check_chimeras_error :
    check_simulate_args demoSettings demoChimArgs =
      .error .chimerasTooHigh := by
  have h1 : checkErrorModel demoChimArgs = .ok () :=
    (checkErrorModel_ok_iff _).mpr (Or.inr (Or.inl (by decide)))
  have h2 : checkPercentages demoChimArgs = .error .chimerasTooHigh := by
    unfold checkPercentages
    rw [if_pos (by norm_num [demoChimArgs, demoArgs])]
  unfold check_simulate_args
  simp only [h1, h2]

/-- With an unparseable `--length` the program exits at the length parse
rule. -/
lemma demo_check_length_error :
    check_simulate_args demoSettings demoBadLenArgs =
      .error .lengthParseFailed := by
  have h1 : checkErrorModel demoBadLenArgs = .ok () :=
    (checkErrorModel_ok_iff _).mpr (Or.inr (Or.inl (by decide)))
  have h2 : checkPercentages demoBadLenArgs = .ok () :=
    (checkPercentages_ok_iff _).mpr
      ⟨by norm_num [demoBadLenArgs, demoArgs], by norm_num [demoBadLenArgs, demoArgs],
       by norm_num [demoBadLenArgs, demoArgs], by norm_num [demoBadLenArgs, demoArgs]⟩
  have h3 : checkLength demoSettings demoBadLenArgs =
      .error .lengthParseFailed := by
    apply checkLength_parseFail
    rintro ⟨ps, hps, -⟩
    simp [demoBadLenArgs, parseFloats] at hps
  unfold check_simulate_args
  simp only [h1, h2, h3]

/-! ### The claims -/

/-- C1: every configuration on which `check_simulate_args` returns
normally satisfies `chimeras ≤ 50`, `junk_reads ≤ 100`,
`random_reads ≤ 100`, `junk_reads + random_reads ≤ 100` and
`frag_length_stdev ≥ 0`; a configuration violating one of these bounds is
rejected instead of returned. -/
theorem claim_C1_percentage_bounds (s : Settings) (a : Args) :
    (∀ out : CheckedArgs, check_simulate_args s a = .ok out →
        a.chimeras ≤ 50 ∧ a.junk_reads ≤ 100 ∧ a.random_reads ≤ 100 ∧
          a.junk_reads + a.random_reads ≤ 100 ∧ 0 ≤ out.frag_length_stdev) ∧
    (50 < a.chimeras ∨ 100 < a.junk_reads ∨ 100 < a.random_reads ∨
        100 < a.junk_reads + a.random_reads →
      ∀ out : CheckedArgs, check_simulate_args s a ≠ .ok out) ∧
    (∀ m st rest, parseFloats a.length = some (m :: st :: rest) → st < 0 →
      ∀ out : CheckedArgs, check_simulate_args s a ≠ .ok out) := by
  refine ⟨?_, ?_, ?_⟩
  · intro out h
    obtain ⟨-, hp, hl, -, -, -⟩ := (check_simulate_args_ok_iff s a out).mp h
    obtain ⟨hc, hj, hr, hsum⟩ := (checkPercentages_ok_iff a).mp hp
    obtain ⟨rest, -, -, hst⟩ := (checkLength_ok_iff s a _ _).mp hl
    exact ⟨hc, hj, hr, hsum, hst⟩
  · rintro hviol out h
    obtain ⟨-, hp, -, -, -, -⟩ := (check_simulate_args_ok_iff s a out).mp h
    obtain ⟨hc, hj, hr, hsum⟩ := (checkPercentages_ok_iff a).mp hp
    rcases hviol with hv | hv | hv | hv
    · exact absurd hc (not_le.mpr hv)
    · exact absurd hj (not_le.mpr hv)
    · exact absurd hr (not_le.mpr hv)
    · exact absurd hsum (not_le.mpr hv)
  · intro m st rest hp hst out h
    obtain ⟨-, -, hl, -, -, -⟩ := (check_simulate_args_ok_iff s a out).mp h
    obtain ⟨rest2, hp2, -, hst2⟩ := (checkLength_ok_iff s a _ _).mp hl
    rw [hp] at hp2
    obtain ⟨-, hst3, -⟩ : m = out.mean_frag_length ∧ st = out.frag_length_stdev ∧
        rest = rest2 := by simpa using hp2
    rw [← hst3] at hst2
    exact absurd hst2 (not_le.mpr hst)

/-- C1 witness: the default configuration is accepted and satisfies the
bounds. -/
theorem claim_C1_witness :
    demoArgs.chimeras ≤ 50 ∧ demoArgs.junk_reads ≤ 100 ∧
      demoArgs.random_reads ≤ 100 ∧
      demoArgs.junk_reads + demoArgs.random_reads ≤ 100 ∧
      0 ≤ demoChecked.frag_length_stdev :=
  (claim_C1_percentage_bounds demoSettings demoArgs).1 demoChecked demo_check_ok

/-- C2: the error-model selector is accepted exactly when its lowercasing
is `"perfect"` or `"random"` or it names an existing file; otherwise
validation exits with the message that `--error_model` must be
`"random"`, `"perfect"` or a filename. -/
theorem claim_C2_error_model_selector (s : Settings) (a : Args) :
    ((pyLower a.error_model = "perfect" ∨ pyLower a.error_model = "random" ∨
        a.error_model_is_file = true) →
      ∀ em, check_simulate_args s a ≠ .error (.badErrorModel em)) ∧
    (¬(pyLower a.error_model = "perfect" ∨ pyLower a.error_model = "random" ∨
         a.error_model_is_file = true) →
      check_simulate_args s a = .error (.badErrorModel a.error_model) ∧
        (SimArgError.badErrorModel a.error_model).message =
          "Error: " ++ a.error_model ++
            " is not a file\n  --error_model must be " ++
            "\"random\", \"perfect\" or a filename") := by
  constructor
  · intro hgood em h
    have hok : checkErrorModel a = .ok () := (checkErrorModel_ok_iff a).mpr hgood
    unfold check_simulate_args at h
    simp only [hok] at h
    rcases h2 : checkPercentages a with e | ⟨⟩
    · simp only [h2] at h
      injection h with h
      exact absurd h (checkPercentages_error_ne_badModel a e h2 em)
    · simp only [h2] at h
      rcases h3 : checkLength s a with e | ⟨m, st⟩
      · simp only [h3] at h
        injection h with h
        exact absurd h (checkLength_error_ne_badModel s a e h3 em)
      · simp only [h3] at h
        rcases h4 : checkIdentity s a with e | ⟨mi, xi, sh⟩
        · simp only [h4] at h
          injection h with h
          exact absurd h (checkIdentity_error_ne_badModel s a e h4 em)
        · simp only [h4] at h
          rcases h5 : checkGlitches a with e | ⟨gr, gs, gk⟩
          · simp only [h5] at h
            injection h with h
            exact absurd h (checkGlitches_error_ne_badModel a e h5 em)
          · simp only [h5] at h
            exact absurd h (by simp)
  · intro hbad
    push_neg at hbad
    obtain ⟨hb1, hb2, hb3⟩ := hbad
    have herr : checkErrorModel a = .error (.badErrorModel a.error_model) := by
      simp only [checkErrorModel]
      rw [if_pos ⟨hb1, hb2, by simpa using hb3⟩]
    constructor
    · unfold check_simulate_args
      simp only [herr]
    · rfl

/-- C2 witness: a selector that is neither a built-in name nor a file is
rejected with the documented message. -/
theorem claim_C2_witness :
    check_simulate_args demoSettings demoBadModelArgs =
      .error (.badErrorModel "missing_model_file") ∧
      (SimArgError.badErrorModel "missing_model_file").message =
        "Error: " ++ "missing_model_file" ++
          " is not a file\n  --error_model must be " ++
          "\"random\", \"perfect\" or a filename" :=
  (claim_C2_error_model_selector demoSettings demoBadModelArgs).2 (by decide)

/-- C3: every accepted configuration has
`MIN_MEAN_READ_IDENTITY < mean_identity ≤ max_identity ≤ 100` and a
positive identity shape. -/
theorem claim_C3_identity_bounds (s : Settings) (a : Args) (out : CheckedArgs)
    (h : check_simulate_args s a = .ok out) :
    s.MIN_MEAN_READ_IDENTITY < out.mean_identity ∧
      out.mean_identity ≤ out.max_identity ∧ out.max_identity ≤ 100 ∧
      0 < out.identity_shape := by
  obtain ⟨-, -, -, hi, -, -⟩ := (check_simulate_args_ok_iff s a out).mp h
  obtain ⟨rest, -, -, hb2, hb3, -, hb5, hb6⟩ :=
    (checkIdentity_ok_iff s a _ _ _).mp hi
  exact ⟨hb3, hb5, hb2, hb6⟩

/-- C3 witness: the bounds at the accepted default configuration. -/
theorem claim_C3_witness :
    demoSettings.MIN_MEAN_READ_IDENTITY < demoChecked.mean_identity ∧
      demoChecked.mean_identity ≤ demoChecked.max_identity ∧
      demoChecked.max_identity ≤ 100 ∧ 0 < demoChecked.identity_shape :=
  claim_C3_identity_bounds demoSettings demoArgs demoChecked demo_check_ok

/-- C4: when `--length`, `--identity` or `--glitches` does not supply
enough parseable comma-separated values (2, 3 and 3 respectively), the
corresponding rule block exits with its "could not parse" message and the
run never returns a configuration. -/
theorem claim_C4_parse_failures (s : Settings) (a : Args) :
    (¬ parsesToAtLeast a.length 2 →
        checkLength s a = .error .lengthParseFailed ∧
          ∀ out : CheckedArgs, check_simulate_args s a ≠ .ok out) ∧
    (¬ parsesToAtLeast a.identity 3 →
        checkIdentity s a = .error .identityParseFailed ∧
          ∀ out : CheckedArgs, check_simulate_args s a ≠ .ok out) ∧
    (¬ parsesToAtLeast a.glitches 3 →
        checkGlitches a = .error .glitchesParseFailed ∧
          ∀ out : CheckedArgs, check_simulate_args s a ≠ .ok out) ∧
    SimArgError.lengthParseFailed.message =
      "Error: could not parse --length values" ∧
    SimArgError.identityParseFailed.message =
      "Error: could not parse --identity values" ∧
    SimArgError.glitchesParseFailed.message =
      "Error: could not parse --glitches values" := by
  refine ⟨?_, ?_, ?_, rfl, rfl, rfl⟩
  · intro hb
    refine ⟨checkLength_parseFail s a hb, ?_⟩
    intro out h
    obtain ⟨-, -, hl, -, -, -⟩ := (check_simulate_args_ok_iff s a out).mp h
    rw [checkLength_parseFail s a hb] at hl
    exact absurd hl (by simp)
  · intro hb
    refine ⟨checkIdentity_parseFail s a hb, ?_⟩
    intro out h
    obtain ⟨-, -, -, hi, -, -⟩ := (check_simulate_args_ok_iff s a out).mp h
    rw [checkIdentity_parseFail s a hb] at hi
    exact absurd hi (by simp)
  · intro hb
    refine ⟨checkGlitches_parseFail a hb, ?_⟩
    intro out h
    obtain ⟨-, -, -, -, hg, -⟩ := (check_simulate_args_ok_iff s a out).mp h
    rw [checkGlitches_parseFail a hb] at hg
    exact absurd hg (by simp)

/-- C4 witness: an unparseable `--length` triggers the parse exit and the
run yields no configuration. -/
theorem claim_C4_witness :
    checkLength demoSettings demoBadLenArgs = .error .lengthParseFailed ∧
      check_simulate_args demoSettings demoBadLenArgs ≠ .ok demoChecked := by
  have h := (claim_C4_parse_failures demoSettings demoBadLenArgs).1 (by
    rintro ⟨ps, hps, -⟩
    simp [demoBadLenArgs, parseFloats] at hps)
  exact ⟨h.1, h.2 demoChecked⟩

/-- C5: a glitch rate of exactly 0 passes validation (with the rest of the
configuration valid, `check_simulate_args` returns normally and records
`glitch_rate = 0`), while any negative glitch rate, size or skip is
rejected. -/
theorem claim_C5_zero_glitch_rate (s : Settings) (a : Args)
    (m st mi xi sh gsz gsk : ℚ) :
    (checkErrorModel a = .ok () → checkPercentages a = .ok () →
      checkLength s a = .ok (m, st) → checkIdentity s a = .ok (mi, xi, sh) →
      a.glitches = [some 0, some gsz, some gsk] → 0 ≤ gsz → 0 ≤ gsk →
      check_simulate_args s a = .ok ⟨a, m, st, mi, xi, sh, 0, gsz, gsk⟩) ∧
    (∀ gr g1 g2 rest, parseFloats a.glitches = some (gr :: g1 :: g2 :: rest) →
      gr < 0 ∨ g1 < 0 ∨ g2 < 0 →
      ∀ out : CheckedArgs, check_simulate_args s a ≠ .ok out) := by
  constructor
  · intro h1 h2 h3 h4 hgl hsz hsk
    have hg : checkGlitches a = .ok (0, gsz, gsk) :=
      (checkGlitches_ok_iff a 0 gsz gsk).mpr
        ⟨[], by rw [hgl]; simp [parseFloats], le_refl 0, hsz, hsk⟩
    exact (check_simulate_args_ok_iff s a _).mpr ⟨h1, h2, h3, h4, hg, rfl⟩
  · intro gr g1 g2 rest hp hneg out h
    obtain ⟨-, -, -, -, hg, -⟩ := (check_simulate_args_ok_iff s a out).mp h
    obtain ⟨rest2, hp2, hn1, hn2, hn3⟩ := (checkGlitches_ok_iff a _ _ _).mp hg
    rw [hp] at hp2
    obtain ⟨he1, he2, he3, -⟩ : gr = out.glitch_rate ∧ g1 = out.glitch_size ∧
        g2 = out.glitch_skip ∧ rest = rest2 := by simpa using hp2
    rcases hneg with hv | hv | hv
    · rw [← he1] at hn1
      exact absurd hn1 (not_le.mpr hv)
    · rw [← he2] at hn2
      exact absurd hn2 (not_le.mpr hv)
    · rw [← he3] at hn3
      exact absurd hn3 (not_le.mpr hv)

/-- C5 witness: the default configuration with `--glitches 0,50,50` is
accepted with `glitch_rate = 0`. -/
theorem claim_C5_witness :
    check_simulate_args demoSettings demoZeroGlitchArgs =
      .ok ⟨demoZeroGlitchArgs, 10000, 9000, 85, 95, 4, 0, 50, 50⟩ :=
  (claim_C5_zero_glitch_rate demoSettings demoZeroGlitchArgs
      10000 9000 85 95 4 50 50).1
    ((checkErrorModel_ok_iff _).mpr (Or.inr (Or.inl (by decide))))
    ((checkPercentages_ok_iff _).mpr
      ⟨by norm_num [demoZeroGlitchArgs, demoArgs],
       by norm_num [demoZeroGlitchArgs, demoArgs],
       by norm_num [demoZeroGlitchArgs, demoArgs],
       by norm_num [demoZeroGlitchArgs, demoArgs]⟩)
    ((checkLength_ok_iff _ _ _ _).mpr
      ⟨[], by simp [demoZeroGlitchArgs, demoArgs, parseFloats],
       by norm_num [demoSettings], by norm_num⟩)
    ((checkIdentity_ok_iff _ _ _ _ _).mpr
      ⟨[], by simp [demoZeroGlitchArgs, demoArgs, parseFloats],
       by norm_num, by norm_num, by norm_num [demoSettings],
       by norm_num [demoSettings], by norm_num, by norm_num⟩)
    (by simp [demoZeroGlitchArgs])
    (by norm_num)
    (by norm_num)

/-- C6: the `model` subcommand defaults `--k_size` to 7 and `--max_alt` to
25 when the user supplies neither. -/
theorem claim_C6_model_defaults :
    (model_parse_args none none none).k_size = 7 ∧
      (model_parse_args none none none).max_alt = 25 :=
  ⟨rfl, rfl⟩

/-- C7: a validation failure stops the run at once: the error propagates
unchanged through the `simulate` dispatch, the failure is a single
deterministic error, and `simulate` is never invoked on any configuration. -/
theorem claim_C7_first_failure_stops (s : Settings) (a : Args)
    (e : SimArgError) {A : Type} (simulate : CheckedArgs → A)
    (h : check_simulate_args s a = .error e) :
    main_simulate s a simulate = .error e ∧
      (∀ e2, check_simulate_args s a = .error e2 → e2 = e) ∧
      ∀ out : CheckedArgs, check_simulate_args s a ≠ .ok out := by
  refine ⟨?_, ?_, ?_⟩
  · unfold main_simulate
    simp only [h]
  · intro e2 h2
    have h3 := h.symm.trans h2
    injection h3 with h3
    exact h3.symm
  · intro out hout
    rw [h] at hout
    exact absurd hout (by simp)

/-- C7 witness: with `--chimeras 51` the dispatch surfaces the chimera
error and `simulate` is not run. -/
theorem claim_C7_witness :
    main_simulate demoSettings demoChimArgs
        (fun checked => checked.mean_frag_length) =
      .error .chimerasTooHigh :=
  (claim_C7_first_failure_stops demoSettings demoChimArgs .chimerasTooHigh
      (fun checked => checked.mean_frag_length) demo_check_chimeras_error).1

/-- C8: the boundary values themselves are rejected: a mean fragment
length exactly `MIN_MEAN_READ_LENGTH`, or a mean or max identity exactly
`MIN_MEAN_READ_IDENTITY`, makes validation exit even though the messages
say the value "must be at least" that minimum. -/
theorem claim_C8_boundaries_rejected (s : Settings) (a : Args) :
    (∀ st rest,
      parseFloats a.length = some (s.MIN_MEAN_READ_LENGTH :: st :: rest) →
      ∀ out : CheckedArgs, check_simulate_args s a ≠ .ok out) ∧
    (∀ mi xi sh rest,
      parseFloats a.identity = some (mi :: xi :: sh :: rest) →
      mi = s.MIN_MEAN_READ_IDENTITY ∨ xi = s.MIN_MEAN_READ_IDENTITY →
      ∀ out : CheckedArgs, check_simulate_args s a ≠ .ok out) ∧
    (SimArgError.meanLengthTooSmall s.MIN_MEAN_READ_LENGTH).message =
      "Error: mean read length must be at least " ++
        toString s.MIN_MEAN_READ_LENGTH ∧
    (SimArgError.meanIdentityTooSmall s.MIN_MEAN_READ_IDENTITY).message =
      "Error: mean read identity must be at least " ++
        toString s.MIN_MEAN_READ_IDENTITY := by
  refine ⟨?_, ?_, rfl, rfl⟩
  · intro st rest hp out h
    obtain ⟨-, -, hl, -, -, -⟩ := (check_simulate_args_ok_iff s a out).mp h
    obtain ⟨rest2, hp2, hgt, -⟩ := (checkLength_ok_iff s a _ _).mp hl
    rw [hp] at hp2
    obtain ⟨hm, -, -⟩ : s.MIN_MEAN_READ_LENGTH = out.mean_frag_length ∧
        st = out.frag_length_stdev ∧ rest = rest2 := by simpa using hp2
    rw [← hm] at hgt
    exact absurd hgt (lt_irrefl _)
  · intro mi xi sh rest hp hb out h
    obtain ⟨-, -, -, hi, -, -⟩ := (check_simulate_args_ok_iff s a out).mp h
    obtain ⟨rest2, hp2, -, -, hgt1, hgt2, -, -⟩ :=
      (checkIdentity_ok_iff s a _ _ _).mp hi
    rw [hp] at hp2
    obtain ⟨hm1, hm2, -, -⟩ : mi = out.mean_identity ∧ xi = out.max_identity ∧
        sh = out.identity_shape ∧ rest = rest2 := by simpa using hp2
    rcases hb with hb | hb
    · rw [← hm1, hb] at hgt1
      exact absurd hgt1 (lt_irrefl _)
    · rw [← hm2, hb] at hgt2
      exact absurd hgt2 (lt_irrefl _)

/-- C8 witness: with the concrete minima 100 and 50, a configuration whose
mean fragment length is exactly 100 is rejected. -/
theorem claim_C8_witness :
    check_simulate_args demoSettings demoBoundaryArgs ≠ .ok demoChecked :=
  (claim_C8_boundaries_rejected demoSettings demoBoundaryArgs).1 0 []
    (by simp [demoBoundaryArgs, demoArgs, demoSettings, parseFloats])
    demoChecked

/-- C9: no lower bound is imposed on the percentage parameters: with all
three percentages negative, validation still returns normally (for any
settings whose identity floor is below 100, the `negPercentArgs`
configuration is accepted). -/
theorem claim_C9_negative_percentages_accepted (s : Settings)
    (hid : s.MIN_MEAN_READ_IDENTITY < 100) :
    (negPercentArgs s).chimeras < 0 ∧ (negPercentArgs s).junk_reads < 0 ∧
      (negPercentArgs s).random_reads < 0 ∧
      check_simulate_args s (negPercentArgs s) = .ok (negPercentChecked s) := by
  refine ⟨by norm_num [negPercentArgs, demoArgs],
    by norm_num [negPercentArgs, demoArgs],
    by norm_num [negPercentArgs, demoArgs], ?_⟩
  apply (check_simulate_args_ok_iff _ _ _).mpr
  refine ⟨?_, ?_, ?_, ?_, ?_, rfl⟩
  · apply (checkErrorModel_ok_iff _).mpr
    refine Or.inr (Or.inl ?_)
    show pyLower demoArgs.error_model = "random"
    decide
  · exact (checkPercentages_ok_iff _).mpr
      ⟨by norm_num [negPercentArgs, demoArgs],
       by norm_num [negPercentArgs, demoArgs],
       by norm_num [negPercentArgs, demoArgs],
       by norm_num [negPercentArgs, demoArgs]⟩
  · exact (checkLength_ok_iff _ _ _ _).mpr
      ⟨[], by simp [negPercentArgs, demoArgs, negPercentChecked, parseFloats],
       by norm_num [negPercentChecked], by norm_num [negPercentChecked]⟩
  · exact (checkIdentity_ok_iff _ _ _ _ _).mpr
      ⟨[], by simp [negPercentArgs, demoArgs, negPercentChecked, parseFloats],
       by show (s.MIN_MEAN_READ_IDENTITY + 100) / 2 ≤ 100; linarith,
       by show (s.MIN_MEAN_READ_IDENTITY + 100) / 2 ≤ 100; linarith,
       by show s.MIN_MEAN_READ_IDENTITY < (s.MIN_MEAN_READ_IDENTITY + 100) / 2; linarith,
       by show s.MIN_MEAN_READ_IDENTITY < (s.MIN_MEAN_READ_IDENTITY + 100) / 2; linarith,
       le_refl _, by norm_num [negPercentChecked]⟩
  · exact (checkGlitches_ok_iff _ _ _ _).mpr
      ⟨[], by simp [negPercentArgs, demoArgs, negPercentChecked, parseFloats],
       by norm_num [negPercentChecked], by norm_num [negPercentChecked],
       by norm_num [negPercentChecked]⟩

/-- C9 witness: with minima 100 and 50, the all-negative-percentage
configuration is accepted. -/
theorem claim_C9_witness :
    (negPercentArgs demoSettings).chimeras < 0 ∧
      (negPercentArgs demoSettings).junk_reads < 0 ∧
      (negPercentArgs demoSettings).random_reads < 0 ∧
      check_simulate_args demoSettings (negPercentArgs demoSettings) =
        .ok (negPercentChecked demoSettings) :=
  claim_C9_negative_percentages_accepted demoSettings
    (by norm_num [demoSettings])

/-- C10: a successful `check_simulate_args` call only extends the argparse
namespace: every original field keeps its value, and the eight added
fields are exactly the values parsed from `--length`, `--identity` and
`--glitches`. -/
theorem claim_C10_frame (s : Settings) (a : Args) (out : CheckedArgs)
    (h : check_simulate_args s a = .ok out) :
    out.toArgs = a ∧
      ∃ lrest irest grest,
        parseFloats a.length =
          some (out.mean_frag_length :: out.frag_length_stdev :: lrest) ∧
        parseFloats a.identity =
          some (out.mean_identity :: out.max_identity ::
            out.identity_shape :: irest) ∧
        parseFloats a.glitches =
          some (out.glitch_rate :: out.glitch_size ::
            out.glitch_skip :: grest) := by
  obtain ⟨-, -, hl, hi, hg, hargs⟩ := (check_simulate_args_ok_iff s a out).mp h
  obtain ⟨lrest, hpl, -, -⟩ := (checkLength_ok_iff s a _ _).mp hl
  obtain ⟨irest, hpi, -, -, -, -, -, -⟩ := (checkIdentity_ok_iff s a _ _ _).mp hi
  obtain ⟨grest, hpg, -, -, -⟩ := (checkGlitches_ok_iff a _ _ _).mp hg
  exact ⟨hargs, lrest, irest, grest, hpl, hpi, hpg⟩

/-- C10 witness: on the accepted default configuration the original fields
are untouched. -/
theorem claim_C10_witness : demoChecked.toArgs = demoArgs :=
  (claim_C10_frame demoSettings demoArgs demoChecked demo_check_ok).1

end Badread
